import Mathlib

/-!
Shallow embedding of `src/integrationos-oauth/src/connections/hubspot/init.ts`:
a single OAuth2 authorization-code token exchange against the HubSpot token
endpoint.  JavaScript values that may be `undefined` are modelled by `Option`;
the network environment is an explicit function from the issued HTTP request
to the outcome of the `axios` call (a parsed JSON body on 2xx, or the string
representation of the thrown error on network failure / non-2xx status, since
`axios` rejects on non-2xx by default).
-/

namespace Hubspot

/-- The `body.metadata` object.  Its `code` and `redirectUri` properties may be
absent (`undefined` in JS), modelled by `Option`. -/
structure Metadata where
  code : Option String
  redirectUri : Option String
deriving DecidableEq

/-- The `body` object destructured inside `init`.  The `metadata` property may
itself be absent; destructuring `metadata: { code, redirectUri }` throws a
`TypeError` exactly when `metadata` is `undefined`/`null`, while a present
`metadata` with missing sub-fields just yields `undefined` values. -/
structure Body where
  clientId : Option String
  clientSecret : Option String
  metadata : Option Metadata
deriving DecidableEq

/-- The `DataObject` argument of `init` (the function receives `{ body }`). -/
structure DataObject where
  body : Body
deriving DecidableEq

/-- The normalized `OAuthResponse` record returned on success.  The three
token fields come from destructuring `response.data`, so each may be
`undefined` when the provider body lacks it.  `meta` is a string-keyed
mapping, modelled as an association list. -/
structure OAuthResponse where
  accessToken : Option String
  refreshToken : Option String
  expiresIn : Option Int
  tokenType : String
  meta : List (String × String)
deriving DecidableEq

/-- A parsed JSON response body from the provider.  The code destructures only
`access_token`, `refresh_token` and `expires_in`; any further fields of the
JSON object are collected in `other`. -/
structure ResponseData where
  access_token : Option String
  refresh_token : Option String
  expires_in : Option Int
  other : List (String × String)
deriving DecidableEq

/-- The outbound HTTP request as assembled for the `axios` call: URL, method,
the two headers set by the code, and the form-encoded body.  The body is
modelled at the level of its fields, in order, after `qs.stringify` has
dropped `undefined` values; percent-encoding of the field values is internal
to the `qs` library and irrelevant to every claim. -/
structure HttpRequest where
  url : String
  method : String
  contentType : String
  accept : String
  data : List (String × String)
deriving DecidableEq

/-- Outcome of the awaited `axios` call: a parsed body on HTTP success, or the
string representation of the thrown error otherwise (`axios` rejects the
promise on network failure and, by default, on any non-2xx status). -/
inductive HttpResult where
  | success (data : ResponseData)
  | failure (err : String)
deriving DecidableEq

/-- Outcome of `init`: the resolved `OAuthResponse`, or the message of the
`Error` thrown by the catch block. -/
inductive InitResult where
  | ok (r : OAuthResponse)
  | error (msg : String)
deriving DecidableEq

/-- `qs.stringify` at the field level: fields whose value is `undefined` are
omitted from the form-encoded output; present fields keep their order. -/
def qsStringify (fields : List (String × Option String)) : List (String × String) :=
  fields.filterMap (fun p => p.2.map (fun v => (p.1, v)))

/-- The `requestBody` object literal built by `init`, in source order. -/
def requestBodyFields (code client_id client_secret redirect_uri : Option String) :
    List (String × Option String) :=
  [("grant_type", some "authorization_code"),
   ("code", code),
   ("client_id", client_id),
   ("client_secret", client_secret),
   ("redirect_uri", redirect_uri)]

/-- The fixed token endpoint URL. -/
def tokenUrl : String := "https://api.hubapi.com/oauth/v1/token"

/-- The request passed to `axios`: fixed URL, POST, the two headers, and the
`qs.stringify` of the request body. -/
def mkRequest (code client_id client_secret redirect_uri : Option String) : HttpRequest :=
  { url := tokenUrl
    method := "POST"
    contentType := "application/x-www-form-urlencoded"
    accept := "application/json"
    data := qsStringify (requestBodyFields code client_id client_secret redirect_uri) }

/-- String representation of the `TypeError` thrown when destructuring
`metadata: { code, redirectUri }` while `body.metadata` is absent (the exact
engine wording is irrelevant to the claims; only that some error string is
produced and wrapped). -/
def destructureErrMsg : String :=
  "TypeError: Cannot destructure property code of body.metadata as it is undefined"

/-- The catch block: every caught error is re-thrown as
`Error("Error fetching access token for Hubspot: " + String(error))`. -/
def wrapError (e : String) : String :=
  "Error fetching access token for Hubspot: " ++ e

/-- The single outbound request `init` issues for a given input, when the
destructuring of `body` does not throw (i.e. `metadata` is present). -/
def issuedRequest (d : DataObject) : Option HttpRequest :=
  match d.body.metadata with
  | none => none
  | some m => some (mkRequest m.code d.body.clientId d.body.clientSecret m.redirectUri)

/-- The `init` function of `hubspot/init.ts`.  `http` is the network
environment: the outcome of the awaited `axios` call on the issued request. -/
def init (d : DataObject) (http : HttpRequest → HttpResult) : InitResult :=
  match d.body.metadata with
  | none => .error (wrapError destructureErrMsg)
  | some m =>
    match http (mkRequest m.code d.body.clientId d.body.clientSecret m.redirectUri) with
    | .success data =>
        .ok { accessToken := data.access_token
              refreshToken := data.refresh_token
              expiresIn := data.expires_in
              tokenType := "Bearer"
              meta := [] }
    | .failure err => .error (wrapError err)

/-- Claim C1: with all four input fields present and a provider response whose
parsed body is access_token A, refresh_token R, expires_in 3600 and nothing
else, `init` returns accessToken A, refreshToken R, expiresIn 3600,
tokenType Bearer and an empty meta (stated for arbitrary token values). -/
theorem C1_success_mapping (cid cs c ru a r : String) (e : Int)
    (http : HttpRequest → HttpResult)
    (h : http (mkRequest (some c) (some cid) (some cs) (some ru)) =
      .success ⟨some a, some r, some e, []⟩) :
    init ⟨⟨some cid, some cs, some ⟨some c, some ru⟩⟩⟩ http =
      .ok ⟨some a, some r, some e, "Bearer", []⟩ := by
  simp [init, h]

def http1w : HttpRequest → HttpResult :=
  fun _ => .success ⟨some "A", some "R", some 3600, []⟩

/-- Witness for C1 at a concrete input and environment. -/
theorem C1_success_mapping_witness :
    init ⟨⟨some "id", some "secret", some ⟨some "code0", some "uri0"⟩⟩⟩ http1w =
      .ok ⟨some "A", some "R", some 3600, "Bearer", []⟩ :=
  C1_success_mapping "id" "secret" "code0" "uri0" "A" "R" 3600 http1w rfl

/-- Claim C2: whenever the awaited HTTP call fails — for any reason the
environment reports, be it network failure or a non-2xx status — `init` fails
with the single generic error whose message embeds the underlying error
string; there is only one error constructor, so no distinct kinds exist. -/
theorem C2_failure_wrapped (cid cs : Option String) (m : Metadata)
    (http : HttpRequest → HttpResult) (err : String)
    (hf : http (mkRequest m.code cid cs m.redirectUri) = .failure err) :
    init ⟨⟨cid, cs, some m⟩⟩ http = .error (wrapError err) := by
  simp [init, hf]

def http2w : HttpRequest → HttpResult :=
  fun _ => .failure "AxiosError: Request failed with status code 400"

/-- Witness for C2 at a concrete input and a 400-status environment. -/
theorem C2_failure_wrapped_witness :
    init ⟨⟨some "id", some "secret", some ⟨some "code0", some "uri0"⟩⟩⟩ http2w =
      .error (wrapError "AxiosError: Request failed with status code 400") :=
  C2_failure_wrapped (some "id") (some "secret") ⟨some "code0", some "uri0"⟩ http2w
    "AxiosError: Request failed with status code 400" rfl

def d3c : DataObject := ⟨⟨some "id", some "secret", some ⟨none, some "uri0"⟩⟩⟩

def http3c : HttpRequest → HttpResult :=
  fun _ => .success ⟨some "A", some "R", some 3600, []⟩

def req3c : HttpRequest :=
  ⟨tokenUrl, "POST", "application/x-www-form-urlencoded", "application/json",
   [("grant_type", "authorization_code"), ("client_id", "id"),
    ("client_secret", "secret"), ("redirect_uri", "uri0")]⟩

/-- Claim C3 counterexample: for the concrete input whose `metadata` is
present but whose `metadata.code` is absent, destructuring does not throw;
a request IS issued, its form body simply omitting the `code` field, and in
an environment that answers it successfully, `init` succeeds instead of
failing with the error type. -/
theorem C3_counterexample :
    init d3c http3c = .ok ⟨some "A", some "R", some 3600, "Bearer", []⟩ ∧
    issuedRequest d3c = some req3c :=
  ⟨rfl, rfl⟩

/-- Claim C3 amended: if `body.metadata` itself is absent, destructuring
throws, no request is issued and `init` fails with the wrapped error; but if
`metadata` is present while `metadata.code` is absent, the request is sent
with the `code` field omitted from the form body, and failure arises only
from the HTTP outcome. -/
theorem C3_missing_code (d : DataObject) (http : HttpRequest → HttpResult)
    (m : Metadata) (req : HttpRequest) :
    (d.body.metadata = none →
      init d http = .error (wrapError destructureErrMsg) ∧ issuedRequest d = none) ∧
    (d.body.metadata = some m → m.code = none → issuedRequest d = some req →
      ∀ v, ("code", v) ∉ req.data) := by
  constructor
  · intro hm
    constructor
    · simp [init, hm]
    · simp [issuedRequest, hm]
  · intro hm hc hr v
    rw [issuedRequest, hm] at hr
    injection hr with hr
    subst hr
    rcases d.body.clientId with _ | cid <;> rcases d.body.clientSecret with _ | cs <;>
      rcases m.redirectUri with _ | ru <;>
      simp [mkRequest, qsStringify, requestBodyFields, hc]

def d3w : DataObject := ⟨⟨some "id", some "secret", none⟩⟩

def http3w : HttpRequest → HttpResult := fun _ => .failure "connection refused"

def d3w2 : DataObject := ⟨⟨some "id", some "secret", some ⟨none, some "uri0"⟩⟩⟩

def req3w : HttpRequest :=
  ⟨tokenUrl, "POST", "application/x-www-form-urlencoded", "application/json",
   [("grant_type", "authorization_code"), ("client_id", "id"),
    ("client_secret", "secret"), ("redirect_uri", "uri0")]⟩

/-- Witness for the amended C3 at concrete inputs: a missing `metadata`
yields the wrapped error with no request, and a missing `metadata.code`
yields a request without the `code` field. -/
theorem C3_missing_code_witness :
    (init d3w http3w = .error (wrapError destructureErrMsg) ∧ issuedRequest d3w = none) ∧
    ("code", "x") ∉ req3w.data :=
  ⟨(C3_missing_code d3w http3w ⟨none, some "uri0"⟩ req3w).1 rfl,
   (C3_missing_code d3w2 http3w ⟨none, some "uri0"⟩ req3w).2 rfl rfl rfl "x"⟩

def d4c : DataObject := ⟨⟨some "id", some "secret", some ⟨none, some "uri0"⟩⟩⟩

def req4c : HttpRequest :=
  ⟨tokenUrl, "POST", "application/x-www-form-urlencoded", "application/json",
   [("grant_type", "authorization_code"), ("client_id", "id"),
    ("client_secret", "secret"), ("redirect_uri", "uri0")]⟩

/-- Claim C4 counterexample: for the concrete input whose `metadata.code` is
absent, the single outbound request is issued with a form body of only four
fields — `code` is not among them — so the body does not consist of exactly
the five claimed fields for every input. -/
theorem C4_counterexample :
    issuedRequest d4c = some req4c ∧ "code" ∉ req4c.data.map Prod.fst :=
  ⟨rfl, by decide⟩

/-- Claim C4 amended: for every input whose `clientId`, `clientSecret`,
`metadata.code` and `metadata.redirectUri` are all present, the single
outbound request is a POST to the fixed token URL with headers
Content-Type application/x-www-form-urlencoded and Accept application/json,
and its form body consists of exactly the fields grant_type, code,
client_id, client_secret, redirect_uri, in that order. -/
theorem C4_request_shape (cid cs c ru : String) :
    issuedRequest ⟨⟨some cid, some cs, some ⟨some c, some ru⟩⟩⟩ =
      some ⟨tokenUrl, "POST", "application/x-www-form-urlencoded", "application/json",
        [("grant_type", "authorization_code"), ("code", c), ("client_id", cid),
         ("client_secret", cs), ("redirect_uri", ru)]⟩ :=
  rfl

/-- Claim C5: for every input on which a request is issued at all, its form
body contains the literal field grant_type=authorization_code, regardless of
the input values. -/
theorem C5_grant_type_literal (d : DataObject) (req : HttpRequest)
    (h : issuedRequest d = some req) :
    ("grant_type", "authorization_code") ∈ req.data := by
  rw [issuedRequest] at h
  rcases hm : d.body.metadata with _ | m <;> rw [hm] at h
  · exact Option.noConfusion h
  · injection h with h
    subst h
    simp [mkRequest, qsStringify, requestBodyFields]

def d5w : DataObject := ⟨⟨none, none, some ⟨none, none⟩⟩⟩

/-- Witness for C5 at a concrete input with every optional value absent. -/
theorem C5_grant_type_literal_witness :
    ("grant_type", "authorization_code") ∈
      (HttpRequest.data ⟨tokenUrl, "POST", "application/x-www-form-urlencoded",
        "application/json", [("grant_type", "authorization_code")]⟩) :=
  C5_grant_type_literal d5w _ rfl

/-- Claim C6: whenever `init` succeeds, the `tokenType` field of the returned
record is the literal Bearer — it is hardcoded, never read from the provider
response. -/
theorem C6_tokenType_bearer (d : DataObject) (http : HttpRequest → HttpResult)
    (r : OAuthResponse) (h : init d http = .ok r) : r.tokenType = "Bearer" := by
  rw [init] at h
  split at h
  · exact InitResult.noConfusion h
  · split at h
    · injection h with h
      subst h
      rfl
    · exact InitResult.noConfusion h

def http6w : HttpRequest → HttpResult :=
  fun _ => .success ⟨some "A", some "R", some 3600, [("token_type", "mac")]⟩

/-- Witness for C6 at a concrete run whose raw provider response carries a
different token type string among its extra fields. -/
theorem C6_tokenType_bearer_witness :
    OAuthResponse.tokenType ⟨some "A", some "R", some 3600, "Bearer", []⟩ = "Bearer" :=
  C6_tokenType_bearer ⟨⟨some "id", some "secret", some ⟨some "code0", some "uri0"⟩⟩⟩
    http6w ⟨some "A", some "R", some 3600, "Bearer", []⟩ rfl

/-- Claim C7: whenever `init` succeeds, the `meta` field of the returned
record is the empty mapping. -/
theorem C7_meta_empty (d : DataObject) (http : HttpRequest → HttpResult)
    (r : OAuthResponse) (h : init d http = .ok r) : r.meta = [] := by
  rw [init] at h
  split at h
  · exact InitResult.noConfusion h
  · split at h
    · injection h with h
      subst h
      rfl
    · exact InitResult.noConfusion h

def http7w : HttpRequest → HttpResult :=
  fun _ => .success ⟨some "A", some "R", some 3600, [("hub_domain", "x.example.com")]⟩

/-- Witness for C7 at a concrete run. -/
theorem C7_meta_empty_witness :
    OAuthResponse.meta ⟨some "A", some "R", some 3600, "Bearer", []⟩ = [] :=
  C7_meta_empty ⟨⟨some "id", some "secret", some ⟨some "code0", some "uri0"⟩⟩⟩
    http7w ⟨some "A", some "R", some 3600, "Bearer", []⟩ rfl

/-- Claim C8: two successful provider responses agreeing on `access_token`,
`refresh_token` and `expires_in` — whatever their other fields — give
identical outcomes: the result depends only on those three response fields. -/
theorem C8_other_fields_ignored (cid cs : Option String) (m : Metadata)
    (http1 http2 : HttpRequest → HttpResult) (r1 r2 : ResponseData)
    (h1 : http1 (mkRequest m.code cid cs m.redirectUri) = .success r1)
    (h2 : http2 (mkRequest m.code cid cs m.redirectUri) = .success r2)
    (ha : r1.access_token = r2.access_token)
    (hr : r1.refresh_token = r2.refresh_token)
    (he : r1.expires_in = r2.expires_in) :
    init ⟨⟨cid, cs, some m⟩⟩ http1 = init ⟨⟨cid, cs, some m⟩⟩ http2 := by
  simp [init, h1, h2, ha, hr, he]

def http8a : HttpRequest → HttpResult :=
  fun _ => .success ⟨some "A", some "R", some 3600, [("token_type", "mac"), ("scope", "all")]⟩

def http8b : HttpRequest → HttpResult :=
  fun _ => .success ⟨some "A", some "R", some 3600, []⟩

/-- Witness for C8: two concrete responses differing only in extra fields. -/
theorem C8_other_fields_ignored_witness :
    init ⟨⟨some "id", some "secret", some ⟨some "code0", some "uri0"⟩⟩⟩ http8a =
      init ⟨⟨some "id", some "secret", some ⟨some "code0", some "uri0"⟩⟩⟩ http8b :=
  C8_other_fields_ignored (some "id") (some "secret") ⟨some "code0", some "uri0"⟩
    http8a http8b ⟨some "A", some "R", some 3600, [("token_type", "mac"), ("scope", "all")]⟩
    ⟨some "A", some "R", some 3600, []⟩ rfl rfl rfl rfl rfl

/-- Claim C9: `init` is deterministic and stateless — it is a pure function
of its input and of the environment answer to the one issued request, so two
environments agreeing on that request yield identical outcomes (the embedding
itself is pure: no other state is read or written). -/
theorem C9_deterministic (d : DataObject) (http1 http2 : HttpRequest → HttpResult)
    (h : ∀ req, issuedRequest d = some req → http1 req = http2 req) :
    init d http1 = init d http2 := by
  rcases hm : d.body.metadata with _ | m
  · simp [init, hm]
  · have hh := h (mkRequest m.code d.body.clientId d.body.clientSecret m.redirectUri)
      (by rw [issuedRequest, hm])
    simp [init, hm, hh]

def http9a : HttpRequest → HttpResult := fun _ => .failure "timeout"

def http9b : HttpRequest → HttpResult := fun _ => .failure "timeout"

/-- Witness for C9: two definitionally distinct but pointwise-equal
environments give the same outcome at a concrete input. -/
theorem C9_deterministic_witness :
    init ⟨⟨some "id", some "secret", some ⟨some "code0", some "uri0"⟩⟩⟩ http9a =
      init ⟨⟨some "id", some "secret", some ⟨some "code0", some "uri0"⟩⟩⟩ http9b :=
  C9_deterministic ⟨⟨some "id", some "secret", some ⟨some "code0", some "uri0"⟩⟩⟩
    http9a http9b (fun _ _ => rfl)

/-- Claim C10: on a successful HTTP call, `init` succeeds whatever fields the
parsed body has: the three destructured fields are copied as-is, so any of
them that is absent comes out as `undefined` (`none`) in the output instead
of causing a failure. -/
theorem C10_missing_fields_still_ok (cid cs : Option String) (m : Metadata)
    (http : HttpRequest → HttpResult) (data : ResponseData)
    (hs : http (mkRequest m.code cid cs m.redirectUri) = .success data) :
    init ⟨⟨cid, cs, some m⟩⟩ http =
      .ok ⟨data.access_token, data.refresh_token, data.expires_in, "Bearer", []⟩ := by
  simp [init, hs]

def http10w : HttpRequest → HttpResult :=
  fun _ => .success ⟨none, none, none, [("status", "new")]⟩

/-- Witness for C10: a 2xx response whose body lacks all three token fields
still yields a success record with those output fields absent. -/
theorem C10_missing_fields_still_ok_witness :
    init ⟨⟨some "id", some "secret", some ⟨some "code0", some "uri0"⟩⟩⟩ http10w =
      .ok ⟨none, none, none, "Bearer", []⟩ :=
  C10_missing_fields_still_ok (some "id") (some "secret") ⟨some "code0", some "uri0"⟩
    http10w ⟨none, none, none, [("status", "new")]⟩ rfl

end Hubspot
